import Mathlib

/-!
Shallow embedding of the `ertflix-2-jellyfin` adapter (Rust) in Lean 4.

The adapter translates the ERTFLIX catalog API into a Jellyfin-compatible
HTTP surface.  Pure functions of the source are translated directly; the
outbound HTTP calls (page-content fetch, section-content fetch, tile-batch
resolve) are modelled by passing their decoded results (or the decode
failure) as explicit function arguments; ambient nondeterminism
(`Uuid::new_v4()`, wall-clock timestamps) is modelled by explicit string
parameters carrying the fresh values.

Byte strings are `List Nat` with every element a byte value; 32-bit words
are `Nat` reduced `% 2 ^ 32` where overflow matters.
-/

/-- UTF-8 encoding of one character, as Rust's `str::as_bytes` produces it
(one to four bytes, determined by the scalar value). -/
def charUtf8 (c : Char) : List Nat :=
  let n := c.toNat
  if n < 0x80 then [n]
  else if n < 0x800 then [0xC0 + n / 0x40, 0x80 + n % 0x40]
  else if n < 0x10000 then
    [0xE0 + n / 0x1000, 0x80 + n / 0x40 % 0x40, 0x80 + n % 0x40]
  else
    [0xF0 + n / 0x40000, 0x80 + n / 0x1000 % 0x40, 0x80 + n / 0x40 % 0x40, 0x80 + n % 0x40]

/-- UTF-8 bytes of a string: Rust's `str::as_bytes`. -/
def strBytes (s : String) : List Nat :=
  (s.data.map charUtf8).flatten

/-- Rotate a 32-bit word left by `n` bits. -/
def rotl (n x : Nat) : Nat :=
  ((x <<< n) ||| (x >>> (32 - n))) % 2 ^ 32

/-- SHA-1 state: five 32-bit words.  Used both for the running hash value
and for the five-word digest (the `uuid` crate's `Uuid::new_v5` hashes with
SHA-1; this is the standard algorithm, RFC 3174). -/
structure Sha1Digest where
  h0 : Nat
  h1 : Nat
  h2 : Nat
  h3 : Nat
  h4 : Nat
deriving DecidableEq, Repr

/-- SHA-1 round function `f` for round `i`. -/
def sha1f (i b c d : Nat) : Nat :=
  if i < 20 then (b &&& c) ||| ((b ^^^ 0xFFFFFFFF) &&& d)
  else if i < 40 then b ^^^ c ^^^ d
  else if i < 60 then (b &&& c) ||| (b &&& d) ||| (c &&& d)
  else b ^^^ c ^^^ d

/-- SHA-1 round constant `k` for round `i`. -/
def sha1k (i : Nat) : Nat :=
  if i < 20 then 0x5A827999
  else if i < 40 then 0x6ED9EBA1
  else if i < 60 then 0x8F1BBCDC
  else 0xCA62C1D6

/-- Big-endian 32-bit words from a byte list (four bytes per word). -/
def toWords : List Nat → List Nat
  | b0 :: b1 :: b2 :: b3 :: rest =>
    (b0 * 2 ^ 24 + b1 * 2 ^ 16 + b2 * 2 ^ 8 + b3) :: toWords rest
  | _ => []

/-- Extend a 16-word block schedule by `n` further words
(`w[i] = rotl 1 (w[i-3] xor w[i-8] xor w[i-14] xor w[i-16])`). -/
def sha1extend (w : List Nat) : Nat → List Nat
  | 0 => w
  | n + 1 =>
    let i := w.length
    let x := rotl 1 ((w.getD (i - 3) 0) ^^^ (w.getD (i - 8) 0) ^^^
      (w.getD (i - 14) 0) ^^^ (w.getD (i - 16) 0))
    sha1extend (w ++ [x]) n

/-- Run SHA-1 rounds `i, i+1, ..., 79` over schedule `w` from state `st`. -/
def sha1rounds (w : List Nat) (i : Nat) (st : Sha1Digest) : Sha1Digest :=
  if _h : i < 80 then
    let temp := (rotl 5 st.h0 + sha1f i st.h1 st.h2 st.h3 + st.h4 + sha1k i + w.getD i 0) % 2 ^ 32
    sha1rounds w (i + 1) ⟨temp, st.h0, rotl 30 st.h1, st.h2, st.h3⟩
  else st
termination_by 80 - i

/-- Process one 64-byte block. -/
def sha1block (st : Sha1Digest) (block : List Nat) : Sha1Digest :=
  let w := sha1extend (toWords block) 64
  let r := sha1rounds w 0 st
  ⟨(st.h0 + r.h0) % 2 ^ 32, (st.h1 + r.h1) % 2 ^ 32, (st.h2 + r.h2) % 2 ^ 32,
    (st.h3 + r.h3) % 2 ^ 32, (st.h4 + r.h4) % 2 ^ 32⟩

/-- Split a byte list into 64-byte chunks. -/
def chunks64 (l : List Nat) : List (List Nat) :=
  if h : l = [] then []
  else l.take 64 :: chunks64 (l.drop 64)
termination_by l.length
decreasing_by
  simp only [List.length_drop]
  have : 0 < l.length := List.length_pos.mpr h
  omega

/-- Big-endian eight-byte encoding of a 64-bit length. -/
def lenBytes64 (n : Nat) : List Nat :=
  [n / 2 ^ 56 % 256, n / 2 ^ 48 % 256, n / 2 ^ 40 % 256, n / 2 ^ 32 % 256,
   n / 2 ^ 24 % 256, n / 2 ^ 16 % 256, n / 2 ^ 8 % 256, n % 256]

/-- SHA-1 padding: append `0x80`, zero bytes to 56 mod 64, then the bit
length as a big-endian 64-bit integer. -/
def sha1pad (msg : List Nat) : List Nat :=
  let len := msg.length
  let zeros := (119 - len % 64) % 64
  msg ++ 0x80 :: (List.replicate zeros 0 ++ lenBytes64 (len * 8))

/-- SHA-1 digest of a byte message. -/
def sha1 (msg : List Nat) : Sha1Digest :=
  (chunks64 (sha1pad msg)).foldl sha1block
    ⟨0x67452301, 0xEFCDAB89, 0x98BADCFE, 0x10325476, 0xC3D2E1F0⟩

/-- Lowercase hexadecimal digit. -/
def hexChar (n : Nat) : Char :=
  if n < 10 then Char.ofNat (48 + n) else Char.ofNat (87 + n)

/-- Fixed-width lowercase hexadecimal rendering, `k` digits. -/
def hexN : Nat → Nat → List Char
  | 0, _ => []
  | k + 1, x => hexN k (x / 16) ++ [hexChar (x % 16)]

/-- Hyphenated lowercase rendering of the UUID built from the first
sixteen digest bytes with the version nibble forced to 5 and the RFC 4122
variant bits set — `uuid::Uuid::to_string` after `Uuid::new_v5`. -/
def uuidFormat (d : Sha1Digest) : String :=
  String.mk (hexN 8 d.h0 ++ '-' :: hexN 4 (d.h1 / 2 ^ 16) ++
    '-' :: hexN 4 (d.h1 % 2 ^ 16 % 2 ^ 12 + 0x5000) ++
    '-' :: (hexN 2 (d.h2 / 2 ^ 24 % 2 ^ 6 + 0x80) ++ hexN 2 (d.h2 / 2 ^ 16 % 2 ^ 8)) ++
    '-' :: hexN 12 (d.h2 % 2 ^ 16 * 2 ^ 32 + d.h3))

/-- Bytes of `uuid::Uuid::NAMESPACE_URL` (`6ba7b811-9dad-11d1-80b4-00c04fd430c8`). -/
def namespaceUrl : List Nat :=
  [0x6b, 0xa7, 0xb8, 0x11, 0x9d, 0xad, 0x11, 0xd1,
   0x80, 0xb4, 0x00, 0xc0, 0x4f, 0xd4, 0x30, 0xc8]

/-- Hyphenated string of `uuid::Uuid::new_v5(namespace, name)`: SHA-1 over
the namespace bytes followed by the name bytes, truncated to 128 bits with
version and variant bits set. -/
def uuidNewV5 (ns nameBytes : List Nat) : String :=
  uuidFormat (sha1 (ns ++ nameBytes))

/-- Upstream tile record (`Tile` in `src/api/ertflix_client.rs`): `id` is
always present, the remaining metadata fields are optional. -/
structure Tile where
  originEntityId : Int
  codename : String
  id : String
  year : Option Nat
  description : Option String
  title : Option String
deriving DecidableEq, Repr

/-- One entry of the upstream page/section response (`SectionContents` in
`src/api/ertflix_client.rs`). -/
structure SectionContents where
  toplistCodename : Option String
  sectionId : Int
  tilesIds : Option (List Tile)
deriving DecidableEq, Repr

/-- Top-level page-content response (`ApiResponse`). -/
structure ApiResponse where
  sectionContents : List SectionContents
deriving DecidableEq, Repr

/-- Client error type (`Error` in `src/api/ertflix_client.rs`):
`request` wraps a transport failure, `parse` a JSON decode failure,
`custom` carries a message. -/
inductive Error where
  | request
  | parse
  | custom (msg : String)
deriving DecidableEq, Repr

/-- One element of the tile-batch request body (`RequestedTile`). -/
structure RequestedTile where
  id : String
deriving DecidableEq, Repr

/-- Body of the tile-batch POST (`GetTilesRequestBody`). -/
structure GetTilesRequestBody where
  platformCodename : String
  requestedTiles : List RequestedTile
deriving DecidableEq, Repr

/-- Domain movie (`Movie` in `src/models/ertflix.rs`). -/
structure Ertflix.Movie where
  id : String
  title : String
  year : Nat
  genre : List String
  description : String
deriving DecidableEq, Repr

/-- Domain episode (`Episode` in `src/models/ertflix.rs`). -/
structure Ertflix.Episode where
  id : String
  title : String
  duration : Nat
deriving DecidableEq, Repr

/-- Domain season (`Season` in `src/models/ertflix.rs`). -/
structure Ertflix.Season where
  seasonNumber : Nat
  episodes : List Ertflix.Episode
deriving DecidableEq, Repr

/-- Domain TV show (`TVShow` in `src/models/ertflix.rs`). -/
structure Ertflix.TVShow where
  id : String
  title : String
  seasons : List Ertflix.Season
deriving DecidableEq, Repr

/-- Domain collection (`Collection` in `src/models/ertflix.rs`). -/
structure Ertflix.Collection where
  name : String
  id : String
deriving DecidableEq, Repr

/-- Conversion `impl From<Tile> for Movie`: absent title and description
default to the empty string, absent year to `1970`, genres are always
empty. -/
def Ertflix.Movie.fromTile (tile : Tile) : Ertflix.Movie :=
  { id := tile.id
    title := tile.title.getD ""
    year := tile.year.getD 1970
    genre := []
    description := tile.description.getD "" }

/-- Conversion `impl From<Tile> for TVShow`: absent title falls back to the
tile's codename, seasons are always empty. -/
def Ertflix.TVShow.fromTile (tile : Tile) : Ertflix.TVShow :=
  { id := tile.id
    title := tile.title.getD tile.codename
    seasons := [] }

/-- Embedding of `DefaultErtflixClient::get_tiles`.  The network
transaction is abstracted by `tilesUpstream`, which maps the request body
the method builds to the decoded upstream response (or its failure).  On
success the returned tiles are converted in upstream order. -/
def ErtflixClient.get_tiles {TileType : Type} (ids : List String)
    (tilesUpstream : GetTilesRequestBody → Except Error (List Tile))
    (convert : Tile → TileType) : Except Error (List TileType) :=
  let requestBody : GetTilesRequestBody :=
    { platformCodename := "www", requestedTiles := ids.map (fun id => { id := id }) }
  match tilesUpstream requestBody with
  | .error e => .error e
  | .ok tiles => .ok (tiles.map convert)

/-- Embedding of `DefaultErtflixClient::get_movies`.  `getSectionContent`
abstracts `get_section_content` (decoded response of the section-content
endpoint for a given section codename); `tilesUpstream` abstracts the
tile-batch endpoint as in `get_tiles`. -/
def ErtflixClient.get_movies (getSectionContent : String → Except Error (List SectionContents))
    (tilesUpstream : GetTilesRequestBody → Except Error (List Tile)) :
    Except Error (List Ertflix.Movie) :=
  match getSectionContent "oles-oi-tainies-1" with
  | .error e => .error e
  | .ok sectionContents =>
    match sectionContents.head? with
    | none => .error (.custom "No movie section found")
    | some movieSection =>
      match movieSection.tilesIds with
      | none => .error (.custom "No tiles found")
      | some tiles =>
        ErtflixClient.get_tiles (tiles.map (fun tile => tile.id)) tilesUpstream Ertflix.Movie.fromTile

/-- Embedding of `DefaultErtflixClient::get_tv_shows`; same shape as
`get_movies` with the TV-shows section codename and conversion. -/
def ErtflixClient.get_tv_shows (getSectionContent : String → Except Error (List SectionContents))
    (tilesUpstream : GetTilesRequestBody → Except Error (List Tile)) :
    Except Error (List Ertflix.TVShow) :=
  match getSectionContent "ert-seires-plereis" with
  | .error e => .error e
  | .ok sectionContents =>
    match sectionContents.head? with
    | none => .error (.custom "No TV shows section found")
    | some tvSection =>
      match tvSection.tilesIds with
      | none => .error (.custom "No tiles found")
      | some tiles =>
        ErtflixClient.get_tiles (tiles.map (fun tile => tile.id)) tilesUpstream Ertflix.TVShow.fromTile

/-- Embedding of `DefaultErtflixClient::get_collections`.  `pageContent`
abstracts the decoded page-content response; on success the sections are
filtered twice on presence of `toplist_codename` (as the source does) and
mapped through the caller's `filteringStrategy`. -/
def ErtflixClient.get_collections {CollectionCategory : Type}
    (pageContent : Except Error ApiResponse)
    (filteringStrategy : SectionContents → CollectionCategory) :
    Except Error (List CollectionCategory) :=
  match pageContent with
  | .error e => .error e
  | .ok topLevelResponse =>
    let apiResponseContent :=
      (topLevelResponse.sectionContents.filter
          (fun s => s.toplistCodename.isSome)).filter
        (fun s => s.toplistCodename.isSome)
    .ok (apiResponseContent.map filteringStrategy)

/-- Configuration constant `SERVER_ID` from `src/config.rs`. -/
def SERVER_ID : String := "optiplex-adapter"

/-- Configuration constant `USER_ID` from `src/config.rs`. -/
def USER_ID : String := "optiplex-user"

/-- Configuration constant `USERNAME` from `src/config.rs`. -/
def USERNAME : String := "antonis"

/-- Jellyfin user-data record (`UserData` in `src/models/jellyfin.rs`). -/
structure Jellyfin.UserData where
  playbackPositionTicks : Int
  playCount : Int
  isFavorite : Bool
  played : Bool
  key : String
  itemId : String
deriving DecidableEq, Repr

/-- Embedding of `UserData::default`.  In the source `key` is
`Uuid::new_v4().to_string()`, a fresh random UUID generated at call time;
that ambient randomness is the explicit `freshKey` parameter here. -/
def Jellyfin.UserData.default (freshKey : String) : Jellyfin.UserData :=
  { playbackPositionTicks := 0
    playCount := 0
    isFavorite := false
    played := false
    key := freshKey
    itemId := "00000000000000000000000000000000" }

/-- Jellyfin image-tag record (`ImageTags`). -/
structure Jellyfin.ImageTags where
  primary : String
deriving DecidableEq, Repr

/-- Embedding of `ImageTags::default`. -/
def Jellyfin.ImageTags.default : Jellyfin.ImageTags :=
  { primary := "00000000000000000000000000000000" }

/-- Jellyfin image-blur-hash record (`ImageBlurHashes`); the `HashMap` is
modelled as an association list. -/
structure Jellyfin.ImageBlurHashes where
  primary : List (String × String)
deriving DecidableEq, Repr

/-- Embedding of `ImageBlurHashes::default`. -/
def Jellyfin.ImageBlurHashes.default : Jellyfin.ImageBlurHashes :=
  { primary := [("4183b69eb08fcd80b087bdf0cdd36c7c", "000")] }

/-- Jellyfin collection response object (`Collection` in
`src/models/jellyfin.rs`); `provider_ids` (an empty `HashMap`) is modelled
as an association list and `primary_image_aspect_ratio` (an `f64`
constant) as `Float`. -/
structure Jellyfin.Collection where
  name : String
  serverId : String
  id : String
  etag : String
  dateCreated : String
  canDelete : Bool
  canDownload : Bool
  sortName : String
  externalUrls : List String
  path : String
  enableMediaSourceDisplay : Bool
  channelId : Option String
  taglines : List String
  genres : List String
  playAccess : String
  remoteTrailers : List String
  providerIds : List (String × String)
  isFolder : Bool
  parentId : String
  itemType : String
  people : List String
  studios : List String
  genreItems : List String
  localTrailerCount : Int
  userData : Jellyfin.UserData
  childCount : Int
  specialFeatureCount : Int
  displayPreferencesId : String
  tags : List String
  primaryImageAspectRatio : Float
  collectionType : String
  imageTags : Jellyfin.ImageTags
  backdropImageTags : List String
  imageBlurHashes : Jellyfin.ImageBlurHashes
  locationType : String
  mediaType : String
  lockedFields : List String
  lockData : Bool

/-- Embedding of `jellyfin::Collection::from(ertflix::Collection)`.
The `etag` is `Uuid::new_v5(&Uuid::NAMESPACE_URL, id_bytes ++ name_bytes)`.
`date_created` is `chrono::offset::Local::now().to_string()` (wall clock)
and `user_data` draws a fresh random UUID; those two ambient effects are
the explicit `now` and `freshKey` parameters. -/
def Jellyfin.Collection.fromErtflix (ertflixCollection : Ertflix.Collection)
    (now freshKey : String) : Jellyfin.Collection :=
  let bytes := strBytes ertflixCollection.id ++ strBytes ertflixCollection.name
  let etag := uuidNewV5 namespaceUrl bytes
  { name := ertflixCollection.name
    serverId := SERVER_ID
    id := ertflixCollection.id
    etag := etag
    dateCreated := now
    canDelete := true
    canDownload := true
    sortName := "movies"
    externalUrls := []
    path := ""
    enableMediaSourceDisplay := false
    channelId := none
    taglines := []
    genres := []
    playAccess := "Full"
    remoteTrailers := []
    providerIds := []
    isFolder := true
    parentId := ""
    itemType := "CollectionFolder"
    people := []
    studios := []
    genreItems := []
    localTrailerCount := 0
    userData := Jellyfin.UserData.default freshKey
    childCount := 0
    specialFeatureCount := 0
    displayPreferencesId := ""
    tags := []
    primaryImageAspectRatio := 0.0
    collectionType := ""
    imageTags := Jellyfin.ImageTags.default
    backdropImageTags := []
    imageBlurHashes := Jellyfin.ImageBlurHashes.default
    locationType := "FileSystem"
    mediaType := "Unknown"
    lockedFields := []
    lockData := false }

/-- Jellyfin collections wrapper (`Collections`). -/
structure Jellyfin.Collections where
  items : List Jellyfin.Collection
  totalRecordCount : Nat
  startIndex : Int

/-- Embedding of `Collections::new`. -/
def Jellyfin.Collections.new (items : List Jellyfin.Collection) : Jellyfin.Collections :=
  { items := items, totalRecordCount := items.length, startIndex := 0 }

/-- Embedding of `MediaService::get_movies`: delegates to the client and
forwards success and failure unchanged. -/
def MediaService.get_movies (clientResult : Except Error (List Ertflix.Movie)) :
    Except Error (List Ertflix.Movie) :=
  match clientResult with
  | .ok movies => .ok movies
  | .error e => .error e

/-- Embedding of `MediaService::get_tv_shows`: delegates to the client and
forwards success and failure unchanged. -/
def MediaService.get_tv_shows (clientResult : Except Error (List Ertflix.TVShow)) :
    Except Error (List Ertflix.TVShow) :=
  match clientResult with
  | .ok shows => .ok shows
  | .error e => .error e

/-- Per-section conversion done inside `MediaService::get_collections`:
build an `ertflix::Collection` with `name = toplist_codename` (defaulted)
and `id = section_id.to_string()`, then `jellyfin::Collection::from`. -/
def sectionToCollection (s : SectionContents) (now freshKey : String) :
    Jellyfin.Collection :=
  Jellyfin.Collection.fromErtflix
    { name := s.toplistCodename.getD "", id := toString s.sectionId } now freshKey

/-- Conversion of the section list inside `MediaService::get_collections`;
each iteration of the source's `map` draws its own fresh timestamp and
random UUID, modelled by the supply `fresh` indexed by position `i`. -/
def convertSections (fresh : Nat → String × String) :
    Nat → List SectionContents → List Jellyfin.Collection
  | _, [] => []
  | i, s :: rest =>
    sectionToCollection s (fresh i).1 (fresh i).2 :: convertSections fresh (i + 1) rest

/-- Embedding of `MediaService::get_collections`: calls the client's
`get_collections` with the identity filtering strategy, then converts every
returned section into a Jellyfin collection. -/
def MediaService.get_collections (pageContent : Except Error ApiResponse)
    (fresh : Nat → String × String) : Except Error (List Jellyfin.Collection) :=
  match ErtflixClient.get_collections pageContent (fun sectionContents => sectionContents) with
  | .error e => .error e
  | .ok sectionContents => .ok (convertSections fresh 0 sectionContents)

/-- Parsed `X-Emby-Authorization` header (`EmbyAuthorizationHeader` in
`src/api/jellyfin_server.rs`). -/
structure EmbyAuthorizationHeader where
  version : String
  device : String
  deviceId : String
  client : String
deriving DecidableEq, Repr

/-- Rust `str::split(',')`: every comma is a separator and empty pieces are
kept; the empty input yields one empty piece. -/
def splitChar (c : Char) : List Char → List (List Char)
  | [] => [[]]
  | x :: xs =>
    match splitChar c xs with
    | [] => [[]]
    | piece :: rest => if x = c then [] :: piece :: rest else (x :: piece) :: rest

/-- Rust `str::trim` (leading and trailing whitespace removed; the header
grammar only ever uses ASCII whitespace, so `Char.isWhitespace` suffices). -/
def trimChars (l : List Char) : List Char :=
  ((l.dropWhile Char.isWhitespace).reverse.dropWhile Char.isWhitespace).reverse

/-- Rust `str::splitn(2, c)` followed by the two `next()` calls: the part
before the first `c`, and (when `c` occurs) everything after it. -/
def splitn2 (c : Char) : List Char → List Char × Option (List Char)
  | [] => ([], none)
  | x :: xs =>
    if x = c then ([], some xs)
    else
      let p := splitn2 c xs
      (x :: p.1, p.2)

/-- Rust `str::trim_matches('"')`: strip every leading and trailing
double-quote character. -/
def trimQuotes (l : List Char) : List Char :=
  ((l.dropWhile (fun c => c = '"')).reverse.dropWhile (fun c => c = '"')).reverse

/-- One iteration of the parser's `for part in s.split(',')` loop: trim the
part, split at the first `=`, trim the key, trim and unquote the value,
then update the matching field (unknown keys leave the record unchanged). -/
def parsePart (acc : EmbyAuthorizationHeader) (part : List Char) :
    EmbyAuthorizationHeader :=
  let kv := trimChars part
  let p := splitn2 '=' kv
  let key := String.mk (trimChars p.1)
  let value := String.mk (trimQuotes (trimChars (p.2.getD [])))
  if key = "MediaBrowser Version" ∨ key = "Version" then { acc with version := value }
  else if key = "Device" then { acc with device := value }
  else if key = "DeviceId" then { acc with deviceId := value }
  else if key = "Client" then { acc with client := value }
  else acc

/-- Loop body of `EmbyAuthorizationHeader::from_str` over all parts,
starting from four empty fields. -/
def parseHeader (s : String) : EmbyAuthorizationHeader :=
  (splitChar ',' s.data).foldl parsePart
    { version := "", device := "", deviceId := "", client := "" }

/-- Embedding of `EmbyAuthorizationHeader::from_str` (error type `()` as in
the source; the body always returns `Ok`). -/
def EmbyAuthorizationHeader.fromStr (s : String) :
    Except Unit EmbyAuthorizationHeader :=
  .ok (parseHeader s)

/-- Jellyfin user configuration (`Configuration` in
`src/api/jellyfin_server.rs`). -/
structure Configuration where
  audioLanguagePreference : String
  playDefaultAudioTrack : Bool
  subtitleLanguagePreference : String
  displayMissingEpisodes : Bool
  groupedFolders : List String
  subtitleMode : String
  displayCollectionsView : Bool
  enableLocalPassword : Bool
  orderedViews : List String
  latestItemsExcludes : List String
  myMediaExcludes : List String
  hidePlayedInLatest : Bool
  rememberAudioSelections : Bool
  rememberSubtitleSelections : Bool
  enableNextEpisodeAutoPlay : Bool
  castReceiverId : String
deriving DecidableEq, Repr

/-- Embedding of `Configuration::default`. -/
def Configuration.default : Configuration :=
  { audioLanguagePreference := "eng"
    playDefaultAudioTrack := true
    subtitleLanguagePreference := "eng"
    displayMissingEpisodes := false
    groupedFolders := []
    subtitleMode := "Always"
    displayCollectionsView := false
    enableLocalPassword := false
    orderedViews := []
    latestItemsExcludes := []
    myMediaExcludes := []
    hidePlayedInLatest := true
    rememberAudioSelections := true
    rememberSubtitleSelections := true
    enableNextEpisodeAutoPlay := true
    castReceiverId := "" }

/-- Jellyfin user policy (`Policy` in `src/api/jellyfin_server.rs`). -/
structure Policy where
  isAdministrator : Bool
  isHidden : Bool
  enableCollectionManagement : Bool
  enableSubtitleManagement : Bool
  enableLyricManagement : Bool
  isDisabled : Bool
  blockedTags : List String
  allowedTags : List String
  enableUserPreferenceAccess : Bool
  accessSchedules : List String
  blockUnratedItems : List String
  enableRemoteControlOfOtherUsers : Bool
  enableSharedDeviceControl : Bool
  enableRemoteAccess : Bool
  enableLiveTvManagement : Bool
  enableLiveTvAccess : Bool
  enableMediaPlayback : Bool
  enableAudioPlaybackTranscoding : Bool
  enableVideoPlaybackTranscoding : Bool
  enablePlaybackRemuxing : Bool
  forceRemoteSourceTranscoding : Bool
  enableContentDeletion : Bool
  enableContentDeletionFromFolders : List String
  enableContentDownloading : Bool
  enableSyncTranscoding : Bool
  enableMediaConversion : Bool
  enabledDevices : List String
  enableAllDevices : Bool
  enabledChannels : List String
  enableAllChannels : Bool
  enabledFolders : List String
  enableAllFolders : Bool
  invalidLoginAttemptCount : Int
  loginAttemptsBeforeLockout : Int
  maxActiveSessions : Int
  enablePublicSharing : Bool
  blockedMediaFolders : List String
  blockedChannels : List String
  remoteClientBitrateLimit : Int
  authenticationProviderId : String
  passwordResetProviderId : String
  syncPlayAccess : String
deriving DecidableEq, Repr

/-- Embedding of `Policy::default`. -/
def Policy.default : Policy :=
  { isAdministrator := true
    isHidden := false
    enableCollectionManagement := false
    enableSubtitleManagement := false
    enableLyricManagement := false
    isDisabled := false
    blockedTags := []
    allowedTags := []
    enableUserPreferenceAccess := true
    accessSchedules := []
    blockUnratedItems := []
    enableRemoteControlOfOtherUsers := true
    enableSharedDeviceControl := true
    enableRemoteAccess := true
    enableLiveTvManagement := true
    enableLiveTvAccess := true
    enableMediaPlayback := true
    enableAudioPlaybackTranscoding := true
    enableVideoPlaybackTranscoding := true
    enablePlaybackRemuxing := true
    forceRemoteSourceTranscoding := false
    enableContentDeletion := true
    enableContentDeletionFromFolders := []
    enableContentDownloading := true
    enableSyncTranscoding := true
    enableMediaConversion := true
    enabledDevices := []
    enableAllDevices := true
    enabledChannels := []
    enableAllChannels := true
    enabledFolders := []
    enableAllFolders := true
    invalidLoginAttemptCount := 0
    loginAttemptsBeforeLockout := -1
    maxActiveSessions := 0
    enablePublicSharing := true
    blockedMediaFolders := []
    blockedChannels := []
    remoteClientBitrateLimit := 0
    authenticationProviderId :=
      "Jellyfin.Server.Implementations.Users.DefaultAuthenticationProvider"
    passwordResetProviderId :=
      "Jellyfin.Server.Implementations.Users.DefaultPasswordResetProvider"
    syncPlayAccess := "CreateAndJoinGroups" }

/-- Jellyfin user (`User` in `src/api/jellyfin_server.rs`). -/
structure User where
  name : String
  serverId : String
  id : String
  hasPassword : Bool
  hasConfiguredPassword : Bool
  hasConfiguredEasyPassword : Bool
  enableAutoLogin : Bool
  lastLoginDate : String
  lastActivityDate : String
  configuration : Configuration
  policy : Policy
deriving DecidableEq, Repr

/-- Embedding of `User::default`.  `id` is `Uuid::new_v4()` and the two
dates are `create_jellyfin_timestamp()` (wall clock); these ambient values
are the explicit `freshId` and `timestamp` parameters. -/
def User.default (freshId timestamp : String) : User :=
  { name := "antonis"
    serverId := SERVER_ID
    id := freshId
    hasPassword := true
    hasConfiguredPassword := true
    hasConfiguredEasyPassword := false
    enableAutoLogin := false
    lastLoginDate := timestamp
    lastActivityDate := timestamp
    configuration := Configuration.default
    policy := Policy.default }

/-- Jellyfin play state (`PlayState`). -/
structure PlayState where
  canSeek : Bool
  isPaused : Bool
  isMuted : Bool
  repeatMode : String
  playbackOrder : String
deriving DecidableEq, Repr

/-- Embedding of `PlayState::default` (the derived `Default`). -/
def PlayState.default : PlayState :=
  { canSeek := false, isPaused := false, isMuted := false,
    repeatMode := "", playbackOrder := "" }

/-- Jellyfin capabilities (`Capabilities`). -/
structure Capabilities where
  playableMediaTypes : List String
  supportedCommands : List String
  supportsMediaControl : Bool
  supportsPersistentIdentifier : Bool
deriving DecidableEq, Repr

/-- Embedding of `Capabilities::default` (the derived `Default`). -/
def Capabilities.default : Capabilities :=
  { playableMediaTypes := [], supportedCommands := [],
    supportsMediaControl := false, supportsPersistentIdentifier := false }

/-- Jellyfin session info (`SessionInfo`). -/
structure SessionInfo where
  playState : PlayState
  additionalUsers : List String
  capabilities : Capabilities
  remoteEndPoint : String
  playableMediaTypes : List String
  id : String
  userId : String
  userName : String
  client : String
  lastActivityDate : String
  lastPlaybackCheckIn : String
  deviceName : String
  deviceId : String
  applicationVersion : String
  isActive : Bool
  supportsMediaControl : Bool
  supportsRemoteControl : Bool
  nowPlayingQueue : List String
  nowPlayingQueueFullItems : List String
  hasCustomDeviceName : Bool
  serverId : String
  supportedCommands : List String
deriving DecidableEq, Repr

/-- Embedding of `SessionInfo::default`.  `id` and `device_id` are fresh
random UUIDs and the dates are the wall clock; passed explicitly. -/
def SessionInfo.default (freshId freshDeviceId timestamp : String) : SessionInfo :=
  { playState := PlayState.default
    additionalUsers := []
    capabilities := Capabilities.default
    remoteEndPoint := ""
    playableMediaTypes := []
    id := freshId
    userId := USER_ID
    userName := USERNAME
    client := "web"
    lastActivityDate := timestamp
    lastPlaybackCheckIn := timestamp
    deviceName := "Mac"
    deviceId := freshDeviceId
    applicationVersion := "v0.0.1"
    isActive := false
    supportsMediaControl := false
    supportsRemoteControl := false
    nowPlayingQueue := []
    nowPlayingQueueFullItems := []
    hasCustomDeviceName := false
    serverId := SERVER_ID
    supportedCommands := [] }

/-- Ambient nondeterminism consumed while building an authentication
response: the random UUIDs drawn by `Uuid::new_v4()` and the wall-clock
timestamp of `create_jellyfin_timestamp()`. -/
structure AuthNondet where
  accessToken : String
  userId : String
  sessionId : String
  defaultSessionId : String
  defaultDeviceId : String
  timestamp : String
deriving DecidableEq, Repr

/-- Embedding of `impl From<EmbyAuthorizationHeader> for SessionInfo`:
start from the default session and overwrite the device/client fields from
the parsed header, drawing one more fresh UUID for `id`. -/
def SessionInfo.fromHeader (header : EmbyAuthorizationHeader) (nd : AuthNondet) :
    SessionInfo :=
  { SessionInfo.default nd.defaultSessionId nd.defaultDeviceId nd.timestamp with
    deviceName := header.device
    deviceId := header.deviceId
    client := header.client
    applicationVersion := header.version
    id := nd.sessionId }

/-- Jellyfin authentication response (`AuthenticationResponse`). -/
structure AuthenticationResponse where
  user : User
  serverId : String
  accessToken : String
  sessionInfo : SessionInfo
deriving DecidableEq, Repr

/-- Embedding of `AuthenticationResponse::default`: default user, server
id, a fresh random access token, and the session built from the parsed
authorization header. -/
def AuthenticationResponse.default (header : EmbyAuthorizationHeader)
    (nd : AuthNondet) : AuthenticationResponse :=
  { user := User.default nd.userId nd.timestamp
    serverId := SERVER_ID
    accessToken := nd.accessToken
    sessionInfo := SessionInfo.fromHeader header nd }

/-- Response bodies the modelled handlers produce: JSON payloads carry the
serialized value, `empty` is `HttpResponse::...::finish()`, `text` a plain
string body. -/
inductive ResponseBody where
  | empty
  | moviesJson (items : List Ertflix.Movie)
  | tvShowsJson (items : List Ertflix.TVShow)
  | collectionsJson (collections : Jellyfin.Collections)
  | authJson (response : AuthenticationResponse)
  | text (message : String)

/-- HTTP response: status code plus body. -/
structure HttpResponse where
  status : Nat
  body : ResponseBody

/-- Embedding of `handle_get_movies` (`src/routes/handlers.rs`): 200 with
the JSON list on success, 500 with an empty body on failure.  The
media-service call's outcome is the explicit argument. -/
def handle_get_movies (result : Except Error (List Ertflix.Movie)) : HttpResponse :=
  match result with
  | .ok movies => { status := 200, body := .moviesJson movies }
  | .error _ => { status := 500, body := .empty }

/-- Embedding of `handle_get_tv_shows`. -/
def handle_get_tv_shows (result : Except Error (List Ertflix.TVShow)) : HttpResponse :=
  match result with
  | .ok tvShows => { status := 200, body := .tvShowsJson tvShows }
  | .error _ => { status := 500, body := .empty }

/-- Embedding of `handle_get_collections`: wraps the collection list in
`Collections::new` on success. -/
def handle_get_collections (result : Except Error (List Jellyfin.Collection)) :
    HttpResponse :=
  match result with
  | .ok collectionsVec =>
    { status := 200, body := .collectionsJson (Jellyfin.Collections.new collectionsVec) }
  | .error _ => { status := 500, body := .empty }

/-- Embedding of `handle_authentication`: the `x-emby-authorization` header
value (`none` when absent or not valid UTF-8, as `unwrap_or("")` treats
it), parsed with `from_str`; `Ok` yields 200 with the authentication
response, `Err` yields 400 with a plain-text message. -/
def handle_authentication (headerValue : Option String) (nd : AuthNondet) :
    HttpResponse :=
  let embyAuthHeader := headerValue.getD ""
  match EmbyAuthorizationHeader.fromStr embyAuthHeader with
  | .ok authorization =>
    { status := 200, body := .authJson (AuthenticationResponse.default authorization nd) }
  | .error _ =>
    { status := 400, body := .text "Invalid X-Emby-Authentication header" }

/-- Characters are determined by their scalar value. -/
theorem char_toNat_injective {c₁ c₂ : Char} (h : c₁.toNat = c₂.toNat) : c₁ = c₂ :=
  Char.ext (UInt32.ext h)

/-- Unicode scalar values are below `0x110000`. -/
theorem char_toNat_lt (c : Char) : c.toNat < 0x110000 := by
  have h : c.val.toNat.isValidChar := c.valid
  rcases h with h | ⟨_, h2⟩
  · exact Nat.lt_trans h (by norm_num)
  · exact h2

/-- UTF-8 never encodes a character to the empty byte list. -/
theorem charUtf8_ne_nil (c : Char) : charUtf8 c ≠ [] := by
  simp only [charUtf8]
  split_ifs <;> simp

/-- UTF-8 is a prefix-free code: equal streams starting with an encoded
character agree on that character and on the remainder. -/
theorem charUtf8_append_inj {c₁ c₂ : Char} {r₁ r₂ : List Nat}
    (h : charUtf8 c₁ ++ r₁ = charUtf8 c₂ ++ r₂) : c₁ = c₂ ∧ r₁ = r₂ := by
  have hv₁ := char_toNat_lt c₁
  have hv₂ := char_toNat_lt c₂
  simp only [charUtf8] at h
  split_ifs at h <;>
    simp only [List.cons_append, List.nil_append, List.cons.injEq] at h <;>
    (refine ⟨char_toNat_injective (by omega), ?_⟩
     first
       | tauto
       | (exfalso; omega))

/-- Concatenated UTF-8 encodings determine the character list. -/
theorem utf8List_inj : ∀ {l₁ l₂ : List Char},
    (l₁.map charUtf8).flatten = (l₂.map charUtf8).flatten → l₁ = l₂ := by
  intro l₁
  induction l₁ with
  | nil =>
    intro l₂ h
    cases l₂ with
    | nil => rfl
    | cons c t =>
      simp only [List.map_nil, List.flatten_nil, List.map_cons, List.flatten_cons] at h
      exact absurd h.symm (by simp [charUtf8_ne_nil])
  | cons c₁ t₁ ih =>
    intro l₂ h
    cases l₂ with
    | nil =>
      simp only [List.map_nil, List.flatten_nil, List.map_cons, List.flatten_cons] at h
      exact absurd h (by simp [charUtf8_ne_nil])
    | cons c₂ t₂ =>
      simp only [List.map_cons, List.flatten_cons] at h
      obtain ⟨hc, hr⟩ := charUtf8_append_inj h
      rw [hc, ih hr]

/-- Rust's `str::as_bytes` is injective. -/
theorem strBytes_injective : Function.Injective strBytes := by
  intro s t h
  exact String.ext (utf8List_inj h)

/-- With a fixed `id`, the byte sequence hashed for the etag determines the
name. -/
theorem hashInput_injective (id : String) {n₁ n₂ : String}
    (h : strBytes id ++ strBytes n₁ = strBytes id ++ strBytes n₂) : n₁ = n₂ :=
  strBytes_injective (List.append_cancel_left h)

/-- Fixed-width hex rendering has the requested width. -/
theorem hexN_length (k : Nat) : ∀ x, (hexN k x).length = k := by
  induction k with
  | zero => intro x; rfl
  | succ k ih => intro x; simp [hexN, ih]

/-- Formatted UUIDs are 36 characters long (32 hex digits, 4 hyphens). -/
theorem uuidFormat_length (d : Sha1Digest) : (uuidFormat d).length = 36 := by
  show (hexN 8 d.h0 ++ '-' :: hexN 4 (d.h1 / 2 ^ 16) ++
    '-' :: hexN 4 (d.h1 % 2 ^ 16 % 2 ^ 12 + 0x5000) ++
    '-' :: (hexN 2 (d.h2 / 2 ^ 24 % 2 ^ 6 + 0x80) ++ hexN 2 (d.h2 / 2 ^ 16 % 2 ^ 8)) ++
    '-' :: hexN 12 (d.h2 % 2 ^ 16 * 2 ^ 32 + d.h3)).length = 36
  simp [hexN_length]

/-- Every synthesized collection etag is 36 characters long. -/
theorem collection_etag_length (c : Ertflix.Collection) (now freshKey : String) :
    (Jellyfin.Collection.fromErtflix c now freshKey).etag.length = 36 := by
  simp [Jellyfin.Collection.fromErtflix, uuidNewV5, uuidFormat_length]

/-- Scalar value of a character as an element of `Fin (2 ^ 32)`. -/
def charCode (c : Char) : Fin (2 ^ 32) :=
  ⟨c.toNat, c.val.toNat_lt⟩

/-- The scalar-value embedding is injective. -/
theorem charCode_injective : Function.Injective charCode := by
  intro a b h
  exact char_toNat_injective (congrArg Fin.val h)

/-- Strings of one fixed length form a finite type. -/
theorem finite_strings_of_length (n : Nat) : Finite { s : String // s.length = n } := by
  apply Finite.of_injective
    (fun s : { s : String // s.length = n } =>
      fun i : Fin n => charCode (s.val.data.getD i.val 'A'))
  intro s t h
  apply Subtype.ext
  apply String.ext
  have hs : s.val.data.length = n := s.property
  have ht : t.val.data.length = n := t.property
  apply List.ext_getElem (by omega)
  intro i h1 h2
  have hi : i < n := by omega
  have hcc := charCode_injective (congrFun h ⟨i, hi⟩)
  rwa [List.getD_eq_getElem _ _ h1, List.getD_eq_getElem _ _ h2] at hcc

/-- Filtering on the same predicate twice and mapping the identity leaves a
single filter pass. -/
theorem filter_twice_map_id (l : List SectionContents) :
    ((l.filter (fun s => s.toplistCodename.isSome)).filter
        (fun s => s.toplistCodename.isSome)).map (fun s => s) =
      l.filter (fun s => s.toplistCodename.isSome) := by
  induction l with
  | nil => rfl
  | cons s t ih => cases hc : s.toplistCodename <;> simp_all [List.filter_cons]

/-- C1, counterexample: a catalog with two sections whose `toplistCodename`
equals the requested movies codename.  The pipeline resolves the FIRST
section's tile (`a1`), and that result differs from the one resolving the
last section's tile (`b1`) — so the last-match selection the claim states
does not hold. -/
theorem C1_counterexample :
    ErtflixClient.get_movies
        (fun _ => .ok
          [⟨some "oles-oi-tainies-1", 1, some [⟨1, "movie-a", "a1", none, none, none⟩]⟩,
           ⟨some "oles-oi-tainies-1", 2, some [⟨2, "movie-b", "b1", none, none, none⟩]⟩])
        (fun body => .ok (body.requestedTiles.map
          (fun rt => ⟨0, "cn", rt.id, none, none, none⟩))) =
      .ok [{ id := "a1", title := "", year := 1970, genre := [], description := "" }] ∧
    ([{ id := "a1", title := "", year := 1970, genre := [], description := "" }] :
        List Ertflix.Movie) ≠
      [{ id := "b1", title := "", year := 1970, genre := [], description := "" }] := by
  exact ⟨rfl, by decide⟩

/-- C1, amended: the movies and TV-shows pipelines resolve the tiles of the
FIRST section of the fetched section-content response and perform no
codename comparison at all: appending any further sections after the first
(matching the requested codename or not) leaves the result unchanged. -/
theorem C1_first_section_selected (s₁ s₂ : SectionContents)
    (ss : List SectionContents)
    (up : GetTilesRequestBody → Except Error (List Tile)) :
    ErtflixClient.get_movies (fun _ => .ok (s₁ :: (ss ++ [s₂]))) up =
      ErtflixClient.get_movies (fun _ => .ok [s₁]) up ∧
    ErtflixClient.get_tv_shows (fun _ => .ok (s₁ :: (ss ++ [s₂]))) up =
      ErtflixClient.get_tv_shows (fun _ => .ok [s₁]) up :=
  ⟨rfl, rfl⟩

/-- C2, counterexample: a single section whose codename does not match the
requested one and whose tile list is present but empty.  Both pipelines
SUCCEED with the empty list (upstream resolving the empty batch to the
empty tile list), where the claim demands a `SectionNotFound` respectively
`EmptySection` failure. -/
theorem C2_counterexample :
    ErtflixClient.get_movies
        (fun _ => .ok [⟨some "irrelevant-codename", 7, some []⟩]) (fun _ => .ok []) =
      .ok [] ∧
    ErtflixClient.get_tv_shows
        (fun _ => .ok [⟨some "irrelevant-codename", 7, some []⟩]) (fun _ => .ok []) =
      .ok [] :=
  ⟨rfl, rfl⟩

/-- C2, amended: the pipelines fail with `Custom "No movie section found"`
(respectively `"No TV shows section found"`) exactly when the fetched
section list is empty — no codename comparison happens — and with
`Custom "No tiles found"` when the first section's tile list is absent;
a present-but-empty tile list is NOT an error: the pipeline succeeds with
the empty list once the upstream resolves the empty batch. -/
theorem C2_error_conditions :
    (∀ up, ErtflixClient.get_movies (fun _ => .ok []) up =
      .error (.custom "No movie section found")) ∧
    (∀ s ss up, s.tilesIds = none →
      ErtflixClient.get_movies (fun _ => .ok (s :: ss)) up =
        .error (.custom "No tiles found")) ∧
    (∀ s ss up, s.tilesIds = some [] → up ⟨"www", []⟩ = .ok [] →
      ErtflixClient.get_movies (fun _ => .ok (s :: ss)) up = .ok []) ∧
    (∀ up, ErtflixClient.get_tv_shows (fun _ => .ok []) up =
      .error (.custom "No TV shows section found")) ∧
    (∀ s ss up, s.tilesIds = none →
      ErtflixClient.get_tv_shows (fun _ => .ok (s :: ss)) up =
        .error (.custom "No tiles found")) ∧
    (∀ s ss up, s.tilesIds = some [] → up ⟨"www", []⟩ = .ok [] →
      ErtflixClient.get_tv_shows (fun _ => .ok (s :: ss)) up = .ok []) := by
  refine ⟨fun up => rfl, ?_, ?_, fun up => rfl, ?_, ?_⟩
  · intro s ss up h
    simp [ErtflixClient.get_movies, h]
  · intro s ss up h1 h2
    simp [ErtflixClient.get_movies, ErtflixClient.get_tiles, h1, h2]
  · intro s ss up h
    simp [ErtflixClient.get_tv_shows, h]
  · intro s ss up h1 h2
    simp [ErtflixClient.get_tv_shows, ErtflixClient.get_tiles, h1, h2]

/-- C2, witness: concrete sections exercising the missing-tile-list error
and the present-but-empty success of `C2_error_conditions`. -/
theorem C2_error_conditions_witness :
    ErtflixClient.get_movies (fun _ => .ok [⟨some "x", 1, none⟩]) (fun _ => .ok []) =
      .error (.custom "No tiles found") ∧
    ErtflixClient.get_movies (fun _ => .ok [⟨some "x", 1, some []⟩]) (fun _ => .ok []) =
      .ok [] ∧
    ErtflixClient.get_tv_shows (fun _ => .ok [⟨some "x", 1, none⟩]) (fun _ => .ok []) =
      .error (.custom "No tiles found") ∧
    ErtflixClient.get_tv_shows (fun _ => .ok [⟨some "x", 1, some []⟩]) (fun _ => .ok []) =
      .ok [] :=
  ⟨C2_error_conditions.2.1 _ [] _ rfl,
   C2_error_conditions.2.2.1 _ [] _ rfl rfl,
   C2_error_conditions.2.2.2.2.1 _ [] _ rfl,
   C2_error_conditions.2.2.2.2.2 _ [] _ rfl rfl⟩

/-- C5: tile-to-domain defaulting — a tile with absent title and year
becomes a movie with empty title and year 1970, genres are always empty,
an absent description defaults to the empty string, and a tile with absent
title becomes a TV show titled by the tile's codename. -/
theorem C5_tile_conversion_defaults (tile : Tile) :
    (tile.title = none → tile.year = none →
      Ertflix.Movie.fromTile tile =
        { id := tile.id, title := "", year := 1970, genre := [],
          description := tile.description.getD "" }) ∧
    (Ertflix.Movie.fromTile tile).genre = [] ∧
    (tile.description = none → (Ertflix.Movie.fromTile tile).description = "") ∧
    (tile.title = none → (Ertflix.TVShow.fromTile tile).title = tile.codename) := by
  refine ⟨?_, rfl, ?_, ?_⟩
  · intro ht hy
    simp [Ertflix.Movie.fromTile, ht, hy]
  · intro hd
    simp [Ertflix.Movie.fromTile, hd]
  · intro ht
    simp [Ertflix.TVShow.fromTile, ht]

/-- C5, witness: the defaults evaluated on a concrete tile with every
optional field absent. -/
theorem C5_tile_conversion_defaults_witness :
    Ertflix.Movie.fromTile ⟨5, "codename-x", "tile-1", none, none, none⟩ =
      { id := "tile-1", title := "", year := 1970, genre := [], description := "" } ∧
    (Ertflix.TVShow.fromTile ⟨5, "codename-x", "tile-1", none, none, none⟩).title =
      "codename-x" :=
  ⟨(C5_tile_conversion_defaults _).1 rfl rfl,
   (C5_tile_conversion_defaults _).2.2.2 rfl⟩

/-- C7: tile resolution returns the upstream-provided tiles converted in
upstream order, for every requested id list — position `i` of the result is
the conversion of position `i` of the upstream response. -/
theorem C7_upstream_order_preserved {TileType : Type} (ids : List String)
    (tiles : List Tile) (convert : Tile → TileType) :
    ErtflixClient.get_tiles ids (fun _ => .ok tiles) convert = .ok (tiles.map convert) ∧
    ∀ i : Nat, (tiles.map convert)[i]? = Option.map convert tiles[i]? :=
  ⟨rfl, fun i => List.getElem?_map convert tiles i⟩

/-- C3, counterexample: two responses synthesized from the SAME upstream
section differ in an exposed identifier — the `key` field of the embedded
user-data record is the fresh random UUID drawn at synthesis time
(`Uuid::new_v4()` in `UserData::default`), so it is not a deterministic
function of upstream identity. -/
theorem C3_counterexample :
    (Jellyfin.Collection.fromErtflix ⟨"movies", "42"⟩ "2024-01-01" "key-1").userData.key ≠
      (Jellyfin.Collection.fromErtflix ⟨"movies", "42"⟩ "2024-01-01" "key-2").userData.key := by
  decide

/-- C3, amended: the `etag`, `id`, `name` and the user-data `item_id` of a
synthesized collection are deterministic functions of the upstream
identity — unchanged under any choice of wall-clock timestamp and fresh
UUID — and the etag is exactly the UUIDv5 of the id and name bytes; the
user-data `key`, however, is a fresh random UUID per synthesis (see the
counterexample). -/
theorem C3_deterministic_identifiers (c : Ertflix.Collection)
    (now₁ key₁ now₂ key₂ : String) :
    (Jellyfin.Collection.fromErtflix c now₁ key₁).etag =
      (Jellyfin.Collection.fromErtflix c now₂ key₂).etag ∧
    (Jellyfin.Collection.fromErtflix c now₁ key₁).id =
      (Jellyfin.Collection.fromErtflix c now₂ key₂).id ∧
    (Jellyfin.Collection.fromErtflix c now₁ key₁).name =
      (Jellyfin.Collection.fromErtflix c now₂ key₂).name ∧
    (Jellyfin.Collection.fromErtflix c now₁ key₁).userData.itemId =
      (Jellyfin.Collection.fromErtflix c now₂ key₂).userData.itemId ∧
    (Jellyfin.Collection.fromErtflix c now₁ key₁).etag =
      uuidNewV5 namespaceUrl (strBytes c.id ++ strBytes c.name) :=
  ⟨rfl, rfl, rfl, rfl, rfl⟩

/-- C4, counterexample: it cannot hold that for ALL inputs two collections
with the same id and different names carry different etags — the etag is a
36-character string, so the etag function on the infinitely many names has
a finite range and must identify two distinct names (pigeonhole; the hash
underlying the etag cannot be injective). -/
theorem C4_counterexample :
    ¬ (∀ (id n₁ n₂ now₁ k₁ now₂ k₂ : String), n₁ ≠ n₂ →
        (Jellyfin.Collection.fromErtflix ⟨n₁, id⟩ now₁ k₁).etag ≠
          (Jellyfin.Collection.fromErtflix ⟨n₂, id⟩ now₂ k₂).etag) := by
  intro hclaim
  haveI := finite_strings_of_length 36
  obtain ⟨n₁, n₂, hne, heq⟩ := Finite.exists_ne_map_eq_of_infinite
    (fun name : String =>
      (⟨(Jellyfin.Collection.fromErtflix ⟨name, ""⟩ "" "").etag,
        collection_etag_length ⟨name, ""⟩ "" ""⟩ : { s : String // s.length = 36 }))
  exact hclaim "" n₁ n₂ "" "" "" "" hne (congrArg Subtype.val heq)

/-- C4, amended: the etag is a pure function of `(id, name)` — identical
`(id, name)` yield identical etags whatever the ambient timestamp and
fresh UUID are — and for a fixed id, distinct names produce distinct byte
sequences fed to the SHA-1-based UUIDv5, so distinct etags hold up to hash
collision (universally distinct etags are impossible: see the
counterexample). -/
theorem C4_etag_pure_function :
    (∀ (c : Ertflix.Collection) (now₁ key₁ now₂ key₂ : String),
      (Jellyfin.Collection.fromErtflix c now₁ key₁).etag =
        (Jellyfin.Collection.fromErtflix c now₂ key₂).etag) ∧
    (∀ (id n₁ n₂ : String), n₁ ≠ n₂ →
      strBytes id ++ strBytes n₁ ≠ strBytes id ++ strBytes n₂) :=
  ⟨fun _ _ _ _ _ => rfl, fun id n₁ n₂ hne h => hne (hashInput_injective id h)⟩

/-- C4, witness: distinct names under a fixed id give distinct hash
inputs, at a concrete input. -/
theorem C4_etag_pure_function_witness :
    strBytes "7" ++ strBytes "movies" ≠ strBytes "7" ++ strBytes "series" :=
  C4_etag_pure_function.2 "7" "movies" "series" (by decide)

/-- C6: the collections pipeline turns exactly the sections carrying a
`toplistCodename` into collections (in order, each drawing its own fresh
timestamp and UUID), and every produced collection is named by the
codename with the section id rendered as its string id. -/
theorem C6_collections_mapping (sections : List SectionContents)
    (fresh : Nat → String × String) :
    MediaService.get_collections (.ok ⟨sections⟩) fresh =
      .ok (convertSections fresh 0
        (sections.filter (fun s => s.toplistCodename.isSome))) ∧
    ∀ (s : SectionContents) (now key codename : String),
      s.toplistCodename = some codename →
        (sectionToCollection s now key).name = codename ∧
        (sectionToCollection s now key).id = toString s.sectionId := by
  constructor
  · simp [MediaService.get_collections, ErtflixClient.get_collections, filter_twice_map_id]
  · intro s now key codename hc
    exact ⟨by simp [sectionToCollection, Jellyfin.Collection.fromErtflix, hc], rfl⟩

/-- C6, witness: the field facts of `C6_collections_mapping` evaluated on
a concrete section. -/
theorem C6_collections_mapping_witness :
    (sectionToCollection ⟨some "top-10", 42, none⟩ "now" "key").name = "top-10" ∧
    (sectionToCollection ⟨some "top-10", 42, none⟩ "now" "key").id = "42" :=
  (C6_collections_mapping [] (fun _ => ("", ""))).2 ⟨some "top-10", 42, none⟩ "now" "key"
    "top-10" rfl

/-- C8, counterexample: on the spec's example header the parser leaves
`client` EMPTY — the first part's key is `MediaBrowser Client`, which no
match arm recognizes (only `Version` has a `MediaBrowser `-prefixed arm) —
so the claimed output with `client = "Infuse"` is not produced. -/
theorem C8_counterexample :
    EmbyAuthorizationHeader.fromStr
        "MediaBrowser Client=\"Infuse\", Device=\"AppleTV\", DeviceId=\"xyz\", Version=\"1.0\"" =
      .ok { version := "1.0", device := "AppleTV", deviceId := "xyz", client := "" } ∧
    parseHeader
        "MediaBrowser Client=\"Infuse\", Device=\"AppleTV\", DeviceId=\"xyz\", Version=\"1.0\"" ≠
      { version := "1.0", device := "AppleTV", deviceId := "xyz", client := "Infuse" } := by
  exact ⟨rfl, by decide⟩

/-- C8, amended: the parser extracts `Version` (under either key `Version`
or `MediaBrowser Version`), `Device`, `DeviceId` and `Client` from the
comma-separated key=value header, strips surrounding quotes, defaults
missing keys to the empty string, ignores unrecognized keys and never
fails; but a key spelled `MediaBrowser Client` is NOT recognized, so the
spec's example yields `client = ""` (with device, deviceId and version as
claimed), while an input whose key is exactly `Client` does set the
client. -/
theorem C8_parser_behavior :
    EmbyAuthorizationHeader.fromStr
        "MediaBrowser Client=\"Infuse\", Device=\"AppleTV\", DeviceId=\"xyz\", Version=\"1.0\"" =
      .ok { version := "1.0", device := "AppleTV", deviceId := "xyz", client := "" } ∧
    EmbyAuthorizationHeader.fromStr
        "Client=\"Infuse\", Device=\"AppleTV\", DeviceId=\"xyz\", Version=\"1.0\"" =
      .ok { version := "1.0", device := "AppleTV", deviceId := "xyz", client := "Infuse" } ∧
    EmbyAuthorizationHeader.fromStr "" =
      .ok { version := "", device := "", deviceId := "", client := "" } ∧
    EmbyAuthorizationHeader.fromStr "Foo=\"1\", Bar=2" =
      .ok { version := "", device := "", deviceId := "", client := "" } ∧
    ∀ s : String, EmbyAuthorizationHeader.fromStr s = .ok (parseHeader s) :=
  ⟨rfl, rfl, rfl, rfl, fun _ => rfl⟩

/-- C9: a pipeline failure (transport, decode or classification) makes the
movies, TV-shows and collections handlers answer 500 with an empty body —
never a 200 with an empty list — and a pipeline success answers 200 with
the resolved items. -/
theorem C9_error_propagation :
    (∀ fetch up e, ErtflixClient.get_movies fetch up = .error e →
      handle_get_movies (MediaService.get_movies (ErtflixClient.get_movies fetch up)) =
        ⟨500, .empty⟩) ∧
    (∀ fetch up movies, ErtflixClient.get_movies fetch up = .ok movies →
      handle_get_movies (MediaService.get_movies (ErtflixClient.get_movies fetch up)) =
        ⟨200, .moviesJson movies⟩) ∧
    (∀ fetch up e, ErtflixClient.get_tv_shows fetch up = .error e →
      handle_get_tv_shows (MediaService.get_tv_shows (ErtflixClient.get_tv_shows fetch up)) =
        ⟨500, .empty⟩) ∧
    (∀ fetch up shows, ErtflixClient.get_tv_shows fetch up = .ok shows →
      handle_get_tv_shows (MediaService.get_tv_shows (ErtflixClient.get_tv_shows fetch up)) =
        ⟨200, .tvShowsJson shows⟩) ∧
    (∀ page fresh e, MediaService.get_collections page fresh = .error e →
      handle_get_collections (MediaService.get_collections page fresh) = ⟨500, .empty⟩) ∧
    (∀ page fresh cols, MediaService.get_collections page fresh = .ok cols →
      handle_get_collections (MediaService.get_collections page fresh) =
        ⟨200, .collectionsJson (Jellyfin.Collections.new cols)⟩) := by
  refine ⟨?_, ?_, ?_, ?_, ?_, ?_⟩ <;> intro a b c h <;> rw [h] <;> rfl

/-- C9, witness: a transport failure of the movies pipeline answered with
500/empty, a successful empty pipeline answered 200 with its (empty) item
list, and a decode failure of the collections pipeline answered 500. -/
theorem C9_error_propagation_witness :
    handle_get_movies (MediaService.get_movies
        (ErtflixClient.get_movies (fun _ => .error .request) (fun _ => .ok []))) =
      ⟨500, .empty⟩ ∧
    handle_get_movies (MediaService.get_movies
        (ErtflixClient.get_movies (fun _ => .ok [⟨some "c", 1, some []⟩])
          (fun _ => .ok []))) =
      ⟨200, .moviesJson []⟩ ∧
    handle_get_collections
        (MediaService.get_collections (.error .parse) (fun _ => ("", ""))) =
      ⟨500, .empty⟩ :=
  ⟨C9_error_propagation.1 _ _ .request rfl,
   C9_error_propagation.2.1 _ _ [] rfl,
   C9_error_propagation.2.2.2.2.1 (.error .parse) _ .parse rfl⟩

/-- C10: parsing the authorization header value returns `Ok` for every
input string, so the authentication handler's 400 branch is unreachable
and every request — with any header value or none — gets a 200
authentication response. -/
theorem C10_authentication_always_ok :
    (∀ s : String, EmbyAuthorizationHeader.fromStr s = .ok (parseHeader s)) ∧
    (∀ (headerValue : Option String) (nd : AuthNondet),
      handle_authentication headerValue nd =
        ⟨200, .authJson
          (AuthenticationResponse.default (parseHeader (headerValue.getD "")) nd)⟩) ∧
    (∀ (headerValue : Option String) (nd : AuthNondet),
      (handle_authentication headerValue nd).status = 200) :=
  ⟨fun _ => rfl, fun _ _ => rfl, fun _ _ => rfl⟩
